import Mathlib

/-!
Verification of the jac-pre-commit hook scripts.

The repository consists of two thin wrapper scripts, `hooks/jac_check.py`
and `hooks/jac_format.py`, around an external compiler library.  We embed
the wrappers' control flow faithfully.  The external library's behaviour
for one file (its recorded parse/format diagnostics, its raw formatter
output, or an exception escaping it) is abstracted into a per-file
environment value; the wrappers' own logic — error gating, the
empty-output guard, the write-on-change rule, extension filtering,
exit-code aggregation — is translated statement by statement.

File writes are made explicit: `format_file` returns, next to its
`FormatResult`, an `Option String` that is `some c` exactly when the
Python code executes `path.write_text(c)`, and `none` when the original
file is left untouched.
-/

namespace JacPreCommit

/-- Python `str.isspace`-style whitespace, as used by `str.strip()`. -/
def pyIsSpace (c : Char) : Bool :=
  c == ' ' || c == '\t' || c == '\n' || c == '\r' || c == '\x0b' || c == '\x0c'

/-- Python `s.strip()`: remove leading and trailing whitespace. -/
def pyStrip (s : String) : String :=
  String.mk (((s.toList.dropWhile pyIsSpace).reverse.dropWhile pyIsSpace).reverse)

/-- Python `s.endswith(suffix)`: character-level suffix test. -/
def pyEndsWith (s suffix : String) : Bool :=
  suffix.toList.isSuffixOf s.toList

/-! ## jac_check.py -/

/-- Outcome of `JacProgram().compile(file_path)` inside `check_file`:
either an exception escapes the library call, or compilation finishes
with the recorded error and warning diagnostics (rendered as strings). -/
inductive CheckOutcome where
  | raises (msg : String)
  | compiled (errors warnings : List String)
deriving DecidableEq

/-- `check_file` from `hooks/jac_check.py`: returns the number of errors
found; any exception is caught and reported as 1. -/
def check_file : CheckOutcome → Nat
  | .raises _ => 1
  | .compiled errs _ => errs.length

/-- Observable outcome of `main` in `hooks/jac_check.py`: the returned
exit status, the two counters of its loop, and whether the usage message
path (fewer than two argv entries) was taken. -/
structure CheckRun where
  exitCode : Nat
  filesChecked : Nat
  totalErrors : Nat
  usageShown : Bool
deriving DecidableEq

/-- The accumulation loop of `main` in `jac_check.py` over `sys.argv[1:]`:
only arguments ending in `".jac"` are checked and counted. -/
def checkLoop (env : String → CheckOutcome) :
    List String → Nat → Nat → Nat × Nat
  | [], totalErrors, filesChecked => (totalErrors, filesChecked)
  | fp :: rest, totalErrors, filesChecked =>
    if pyEndsWith fp ".jac" then
      checkLoop env rest (totalErrors + check_file (env fp)) (filesChecked + 1)
    else
      checkLoop env rest totalErrors filesChecked

/-- `main` from `hooks/jac_check.py`.  `argv` is the full `sys.argv`
(program name first); `env` gives the library's outcome for each path. -/
def checkMain (argv : List String) (env : String → CheckOutcome) : CheckRun :=
  if argv.length < 2 then
    { exitCode := 0, filesChecked := 0, totalErrors := 0, usageShown := true }
  else
    let r := checkLoop env argv.tail 0 0
    { exitCode := if 0 < r.2 ∧ 0 < r.1 then 1 else 0,
      filesChecked := r.2, totalErrors := r.1, usageShown := false }

/-! ## jac_format.py -/

/-- `FormatResult` from `hooks/jac_format.py`. -/
structure FormatResult where
  filepath : String
  modified : Bool := false
  error : Option String := none
  warnings : List String := []
deriving DecidableEq

/-- What happens once `format_file` enters its `try` block: either an
exception escapes (from reading, parsing or the passes) with rendered
message and traceback `msg`, or the pipeline runs, recording parse-stage
errors, format-pass errors, the raw `current_mod.gen.jac` output
(`none` models Python `None`), and warnings. -/
inductive PipelineOutcome where
  | raises (msg : String)
  | runs (parseErrors formatErrors : List String)
      (rawOutput : Option String) (warns : List String)
deriving DecidableEq

/-- The per-file environment `format_file` runs against: whether
`path.exists()` holds, the content read from the file, and the library
pipeline's behaviour on it. -/
structure FormatEnv where
  fileExists : Bool
  originalContent : String
  outcome : PipelineOutcome
deriving DecidableEq

/-- Lines 78–87 of `jac_format.py`: the empty-output guard.  `none` is
the error path (`"Formatter produced empty output"`); `some fc` is the
`formatted_content` that reaches the comparison with the original. -/
def pipelineFinal (orig : String) (rawOutput : Option String) : Option String :=
  match rawOutput with
  | none => if pyStrip orig ≠ "" then none else some ""
  | some s =>
      if pyStrip s = "" then
        if pyStrip orig ≠ "" then none else some ""
      else some s

/-- `format_file` from `hooks/jac_format.py`.  The second component is
the write effect: `some c` iff `path.write_text(c)` runs. -/
def format_file (filepath : String) (env : FormatEnv) :
    FormatResult × Option String :=
  if env.fileExists = false then
    ({ filepath := filepath,
       error := some ("File does not exist: " ++ filepath) }, none)
  else
    match env.outcome with
    | .raises msg =>
        ({ filepath := filepath,
           error := some ("Unexpected error: " ++ msg) }, none)
    | .runs parseErrors formatErrors rawOutput warns =>
        if parseErrors ≠ [] then
          ({ filepath := filepath,
             error := some ("Parse errors:\n  "
               ++ String.intercalate "\n  " parseErrors) }, none)
        else if formatErrors ≠ [] then
          ({ filepath := filepath,
             error := some ("Format errors:\n  "
               ++ String.intercalate "\n  " formatErrors) }, none)
        else
          match pipelineFinal env.originalContent rawOutput with
          | none =>
              ({ filepath := filepath,
                 error := some
                   "Formatter produced empty output (possible internal error)" },
               none)
          | some fc =>
              if fc ≠ env.originalContent then
                ({ filepath := filepath, modified := true,
                   warnings := warns }, some fc)
              else
                ({ filepath := filepath, modified := false,
                   warnings := warns }, none)

/-- The `formatted_content` value that reaches the comparison at line 93
of `jac_format.py`, when that line is reached at all (`none` on every
earlier-return path). -/
def finalContent (env : FormatEnv) : Option String :=
  if env.fileExists = false then none
  else
    match env.outcome with
    | .raises _ => none
    | .runs parseErrors formatErrors rawOutput _ =>
        if parseErrors ≠ [] then none
        else if formatErrors ≠ [] then none
        else pipelineFinal env.originalContent rawOutput

/-- The condition of line 79 of `jac_format.py`:
`formatted_content is None or formatted_content.strip() == ""`. -/
def blankOutput : Option String → Bool
  | none => true
  | some s => pyStrip s == ""

/-- Observable outcome of `main` in `hooks/jac_format.py`. -/
structure FormatRun where
  exitCode : Nat
  errorCount : Nat
  modifiedCount : Nat
  results : List FormatResult
  usageShown : Bool
deriving DecidableEq

/-- The collection loop of `main` in `jac_format.py`: `format_file` is
called on each argument ending in `".jac"`, in order.  Write effects are
kept alongside each result. -/
def formatLoop (env : String → FormatEnv) :
    List String → List (FormatResult × Option String)
  | [] => []
  | fp :: rest =>
    if pyEndsWith fp ".jac" then
      format_file fp (env fp) :: formatLoop env rest
    else
      formatLoop env rest

/-- The reporting loop of `main` in `jac_format.py`: counts error results
and, among non-error results, modified ones. -/
def reportLoop : List FormatResult → Nat → Nat → Nat × Nat
  | [], errorCount, modifiedCount => (errorCount, modifiedCount)
  | r :: rest, errorCount, modifiedCount =>
    if r.error.isSome then reportLoop rest (errorCount + 1) modifiedCount
    else if r.modified then reportLoop rest errorCount (modifiedCount + 1)
    else reportLoop rest errorCount modifiedCount

/-- `main` from `hooks/jac_format.py`. -/
def formatMain (argv : List String) (env : String → FormatEnv) : FormatRun :=
  if argv.length < 2 then
    { exitCode := 0, errorCount := 0, modifiedCount := 0,
      results := [], usageShown := true }
  else
    let results := (formatLoop env argv.tail).map Prod.fst
    let counts := reportLoop results 0 0
    { exitCode :=
        if 0 < counts.1 then 1 else if 0 < counts.2 then 1 else 0,
      errorCount := counts.1, modifiedCount := counts.2,
      results := results, usageShown := false }

/-- The `.jac`-suffixed arguments among `sys.argv[1:]` — the files the
loops in both hooks actually process. -/
def jacArgs (args : List String) : List String :=
  args.filter (fun a => pyEndsWith a ".jac")

/-- Total error count `jac_check.py`'s loop accumulates over `args`. -/
def checkErrorsTotal (cenv : String → CheckOutcome) (args : List String) : Nat :=
  ((jacArgs args).map (fun a => check_file (cenv a))).sum

/-- The `FormatResult`s `jac_format.py`'s loop collects over `args`. -/
def formatResults (fenv : String → FormatEnv) (args : List String) :
    List FormatResult :=
  (jacArgs args).map (fun a => (format_file a (fenv a)).1)

/-! ## Characterizations of the loops -/

theorem checkLoop_eq (env : String → CheckOutcome) (l : List String)
    (te fc : Nat) :
    checkLoop env l te fc
      = (te + checkErrorsTotal env l, fc + (jacArgs l).length) := by
  induction l generalizing te fc with
  | nil => simp [checkLoop, checkErrorsTotal, jacArgs]
  | cons a rest ih =>
    cases h : pyEndsWith a ".jac"
    · simp [checkLoop, h, ih, checkErrorsTotal, jacArgs, List.filter_cons]
    · simp [checkLoop, h, ih, checkErrorsTotal, jacArgs, List.filter_cons]
      omega

theorem formatLoop_eq (env : String → FormatEnv) (l : List String) :
    formatLoop env l
      = (jacArgs l).map (fun a => format_file a (env a)) := by
  induction l with
  | nil => simp [formatLoop, jacArgs]
  | cons a rest ih =>
    cases h : pyEndsWith a ".jac" <;>
      simp [formatLoop, h, ih, jacArgs, List.filter_cons]

theorem reportLoop_eq (l : List FormatResult) (ec mc : Nat) :
    reportLoop l ec mc
      = (ec + l.countP (fun r => r.error.isSome),
         mc + l.countP (fun r => !r.error.isSome && r.modified)) := by
  induction l generalizing ec mc with
  | nil => simp [reportLoop]
  | cons r rest ih =>
    cases he : r.error with
    | some e =>
        simp [reportLoop, he, ih, List.countP_cons]
        omega
    | none =>
        cases hm : r.modified
        · simp [reportLoop, he, hm, ih, List.countP_cons]
        · simp [reportLoop, he, hm, ih, List.countP_cons]
          omega

theorem checkMain_cons (prog : String) (args : List String)
    (cenv : String → CheckOutcome) :
    checkMain (prog :: args) cenv
      = { exitCode :=
            if 0 < (jacArgs args).length ∧ 0 < checkErrorsTotal cenv args
            then 1 else 0,
          filesChecked := (jacArgs args).length,
          totalErrors := checkErrorsTotal cenv args,
          usageShown := decide (args = []) } := by
  by_cases ha : args = []
  · subst ha
    simp [checkMain, jacArgs, checkErrorsTotal]
  · have hpos : 0 < args.length := List.length_pos.mpr ha
    have hlen : ¬ (prog :: args).length < 2 := by
      simp only [List.length_cons]
      omega
    simp only [checkMain, if_neg hlen, List.tail_cons, checkLoop_eq,
      Nat.zero_add]
    simp [ha]

theorem formatMain_cons (prog : String) (args : List String)
    (fenv : String → FormatEnv) :
    formatMain (prog :: args) fenv
      = { exitCode :=
            if 0 < (formatResults fenv args).countP (fun r => r.error.isSome)
            then 1
            else if 0 < (formatResults fenv args).countP
                (fun r => !r.error.isSome && r.modified)
            then 1 else 0,
          errorCount :=
            (formatResults fenv args).countP (fun r => r.error.isSome),
          modifiedCount :=
            (formatResults fenv args).countP
              (fun r => !r.error.isSome && r.modified),
          results := formatResults fenv args,
          usageShown := decide (args = []) } := by
  by_cases ha : args = []
  · subst ha
    simp [formatMain, formatResults, jacArgs]
  · have hpos : 0 < args.length := List.length_pos.mpr ha
    have hlen : ¬ (prog :: args).length < 2 := by
      simp only [List.length_cons]
      omega
    simp only [formatMain, if_neg hlen, List.tail_cons, formatLoop_eq,
      List.map_map, Function.comp, reportLoop_eq, Nat.zero_add,
      formatResults]
    simp [ha, Function.comp_def]

/-! ## Claims -/

/-- Claim C1: if any error-severity diagnostic is recorded during parsing
or during the format passes, `format_file` returns a `FormatResult`
carrying an error and never writes the file. -/
theorem format_file_errors_block_write (fp : String) (ex : Bool)
    (orig : String) (pe fe : List String) (rawOutput : Option String)
    (w : List String) (h : pe ≠ [] ∨ fe ≠ []) :
    (format_file fp ⟨ex, orig, .runs pe fe rawOutput w⟩).1.error ≠ none
    ∧ (format_file fp ⟨ex, orig, .runs pe fe rawOutput w⟩).2 = none := by
  cases ex
  · simp [format_file]
  · by_cases hpe : pe = []
    · have hfe : fe ≠ [] := by
        rcases h with h | h
        · exact absurd hpe h
        · exact h
      subst hpe
      simp [format_file, hfe]
    · simp [format_file, hpe]

/-- Witness for C1: a file with one recorded parse error is not written
and its result carries an error. -/
theorem format_file_errors_block_write_witness :
    (format_file "a.jac"
        ⟨true, "x", .runs ["bad token"] [] (some "x") []⟩).1.error ≠ none
    ∧ (format_file "a.jac"
        ⟨true, "x", .runs ["bad token"] [] (some "x") []⟩).2 = none :=
  format_file_errors_block_write "a.jac" true "x" ["bad token"] []
    (some "x") [] (Or.inl (by simp))

/-- Claim C2: on every path, either `format_file` reports
`modified = false` and performs no write, or it reports `modified = true`
and writes exactly the compared content, which then differs from the
original.  In particular, when the content compared at line 93 equals the
original, the file is untouched, and a write happens only on a genuine
change. -/
theorem format_file_writes_only_when_changed (fp : String)
    (env : FormatEnv) :
    ((format_file fp env).1.modified = false
      ∧ (format_file fp env).2 = none)
    ∨ ((format_file fp env).1.modified = true
      ∧ (format_file fp env).2 = finalContent env
      ∧ finalContent env ≠ some env.originalContent
      ∧ finalContent env ≠ none) := by
  obtain ⟨ex, orig, out⟩ := env
  cases ex
  · left
    simp [format_file]
  · cases out with
    | raises msg =>
        left
        simp [format_file]
    | runs pe fe rawOutput w =>
        by_cases hpe : pe = []
        · by_cases hfe : fe = []
          · subst hpe
            subst hfe
            cases hfc : pipelineFinal orig rawOutput with
            | none =>
                left
                simp [format_file, hfc]
            | some fc =>
                by_cases hch : fc = orig
                · left
                  subst hch
                  simp [format_file, hfc]
                · right
                  simp [format_file, finalContent, hfc, hch]
          · left
            simp [format_file, hpe, hfe]
        · left
          simp [format_file, hpe]

/-- Counterexample for C4 as stated: with no error recorded and one
warning recorded, `format_file` can still fail — a blank pipeline output
on a non-blank original triggers the empty-output guard. -/
theorem warnings_only_can_still_fail_cex :
    (format_file "a.jac" ⟨true, "x", .runs [] [] none ["w1"]⟩).1.error
      = some "Formatter produced empty output (possible internal error)" := by
  decide

/-- Claim C4 (amended): warnings never affect the outcome.  When no error
is recorded and the pipeline output survives the empty-output guard,
`format_file` succeeds, returns the warnings, and writes exactly when the
content changed — independently of which warnings were recorded; and
`check_file`'s return value does not depend on the warnings. -/
theorem warnings_never_affect_outcome (fp orig : String)
    (rawOutput : Option String) (fc : String)
    (w errs warns warns2 : List String)
    (h : pipelineFinal orig rawOutput = some fc) :
    (format_file fp ⟨true, orig, .runs [] [] rawOutput w⟩).1.error = none
    ∧ (format_file fp ⟨true, orig, .runs [] [] rawOutput w⟩).1.warnings = w
    ∧ (format_file fp ⟨true, orig, .runs [] [] rawOutput w⟩).1.modified
        = (if fc = orig then false else true)
    ∧ (format_file fp ⟨true, orig, .runs [] [] rawOutput w⟩).2
        = (if fc = orig then none else some fc)
    ∧ check_file (.compiled errs warns) = check_file (.compiled errs warns2) := by
  by_cases hch : fc = orig <;>
    simp [format_file, h, hch, check_file]

/-- Witness for C4 (amended): stable input with one warning recorded. -/
theorem warnings_never_affect_outcome_witness :
    (format_file "a.jac" ⟨true, "x", .runs [] [] (some "x") ["w1"]⟩).1.error
        = none
    ∧ (format_file "a.jac"
        ⟨true, "x", .runs [] [] (some "x") ["w1"]⟩).1.warnings = ["w1"]
    ∧ (format_file "a.jac"
        ⟨true, "x", .runs [] [] (some "x") ["w1"]⟩).1.modified
        = (if ("x" : String) = "x" then false else true)
    ∧ (format_file "a.jac" ⟨true, "x", .runs [] [] (some "x") ["w1"]⟩).2
        = (if ("x" : String) = "x" then none else some "x")
    ∧ check_file (.compiled ["e1"] [])
        = check_file (.compiled ["e1"] ["w2"]) :=
  warnings_never_affect_outcome "a.jac" "x" (some "x") "x" ["w1"] ["e1"]
    [] ["w2"] (by decide)

/-- Counterexample for C7 as stated: a whitespace-only (but non-empty)
original with blank pipeline output is not left unwritten — the hook
rewrites the file to the substituted empty string. -/
theorem empty_output_whitespace_original_rewrites_cex :
    (format_file "a.jac" ⟨true, " ", .runs [] [] none []⟩).1.error = none
    ∧ (format_file "a.jac" ⟨true, " ", .runs [] [] none []⟩).1.modified
        = true
    ∧ (format_file "a.jac" ⟨true, " ", .runs [] [] none []⟩).2
        = some "" := by
  decide

/-- Claim C7 (amended): with a blank-stripping original and blank
pipeline output, `format_file` substitutes the empty string without
reporting an error; for original content exactly `""` the substitute
equals the original, so `modified = false` and no write occurs, while for
a whitespace-only non-empty original the file is rewritten to `""`. -/
theorem blank_original_blank_output_behavior (fp orig : String)
    (rawOutput : Option String) (w : List String)
    (hblank : pyStrip orig = "") (hout : blankOutput rawOutput = true) :
    (format_file fp ⟨true, orig, .runs [] [] rawOutput w⟩).1.error = none
    ∧ (format_file fp ⟨true, orig, .runs [] [] rawOutput w⟩).1.modified
        = (if orig = "" then false else true)
    ∧ (format_file fp ⟨true, orig, .runs [] [] rawOutput w⟩).2
        = (if orig = "" then none else some "") := by
  have hfc : pipelineFinal orig rawOutput = some "" := by
    cases rawOutput with
    | none => simp [pipelineFinal, hblank]
    | some s =>
        have hs : pyStrip s = "" := by simpa [blankOutput] using hout
        simp [pipelineFinal, hs, hblank]
  by_cases ho : orig = ""
  · subst ho
    simp [format_file, hfc]
  · have hno : ("" : String) ≠ orig := fun hh => ho hh.symm
    simp [format_file, hfc, ho, hno]

/-- Witness for C7 (amended): truly empty original, `None` output. -/
theorem blank_original_blank_output_behavior_witness :
    (format_file "a.jac" ⟨true, "", .runs [] [] none []⟩).1.error = none
    ∧ (format_file "a.jac" ⟨true, "", .runs [] [] none []⟩).1.modified
        = (if ("" : String) = "" then false else true)
    ∧ (format_file "a.jac" ⟨true, "", .runs [] [] none []⟩).2
        = (if ("" : String) = "" then none else some "") :=
  blank_original_blank_output_behavior "a.jac" "" none [] (by decide)
    (by decide)

/-- Claim C8: if the original content is non-blank after stripping and
the pipeline output is `None` or whitespace-only, `format_file` returns
the empty-output error and the original file is not overwritten. -/
theorem empty_output_guard (fp orig : String) (rawOutput : Option String)
    (w : List String) (hne : pyStrip orig ≠ "")
    (hout : blankOutput rawOutput = true) :
    (format_file fp ⟨true, orig, .runs [] [] rawOutput w⟩).1.error
        = some "Formatter produced empty output (possible internal error)"
    ∧ (format_file fp ⟨true, orig, .runs [] [] rawOutput w⟩).2 = none := by
  have hfc : pipelineFinal orig rawOutput = none := by
    cases rawOutput with
    | none => simp [pipelineFinal, hne]
    | some s =>
        have hs : pyStrip s = "" := by simpa [blankOutput] using hout
        simp [pipelineFinal, hs, hne]
  simp [format_file, hfc]

/-- Witness for C8: non-empty original, `None` pipeline output. -/
theorem empty_output_guard_witness :
    (format_file "a.jac" ⟨true, "x", .runs [] [] none []⟩).1.error
        = some "Formatter produced empty output (possible internal error)"
    ∧ (format_file "a.jac" ⟨true, "x", .runs [] [] none []⟩).2 = none :=
  empty_output_guard "a.jac" "x" none [] (by decide) (by decide)

/-- Claim C3: for a non-empty list of `.jac` file arguments, the
jac-check entry point exits 1 exactly when the total error count over
all checked files is non-zero (0 when every file has zero errors), and
the jac-format entry point exits 1 whenever some file produced an
error. -/
theorem hooks_exit_codes_on_errors (prog : String) (args : List String)
    (cenv : String → CheckOutcome) (fenv : String → FormatEnv)
    (hne : args ≠ [])
    (hjac : ∀ a ∈ args, pyEndsWith a ".jac" = true)
    (herr : ∃ a ∈ args, (format_file a (fenv a)).1.error ≠ none) :
    (checkMain (prog :: args) cenv).exitCode
      = (if 0 < (args.map (fun a => check_file (cenv a))).sum
         then 1 else 0)
    ∧ (formatMain (prog :: args) fenv).exitCode = 1 := by
  have hfil : jacArgs args = args := List.filter_eq_self.mpr hjac
  constructor
  · simp only [checkMain_cons, checkErrorsTotal, hfil]
    have hlp : 0 < args.length := List.length_pos.mpr hne
    by_cases hs : 0 < (args.map (fun a => check_file (cenv a))).sum
    · rw [if_pos ⟨hlp, hs⟩, if_pos hs]
    · rw [if_neg (fun hc => hs hc.2), if_neg hs]
  · simp only [formatMain_cons]
    have hcp : 0 < (formatResults fenv args).countP
        (fun r => r.error.isSome) := by
      rw [List.countP_pos_iff]
      obtain ⟨a, ha, he⟩ := herr
      refine ⟨(format_file a (fenv a)).1, ?_, ?_⟩
      · rw [formatResults, hfil]
        exact List.mem_map.mpr ⟨a, ha, rfl⟩
      · simpa [Option.isSome_iff_ne_none] using he
    rw [if_pos hcp]

/-- Witness for C3: one `.jac` argument whose format session fails. -/
theorem hooks_exit_codes_on_errors_witness :
    (checkMain ("jac-check" :: ["a.jac"])
        (fun _ => CheckOutcome.compiled [] [])).exitCode
      = (if 0 < ((["a.jac"] : List String).map
            (fun a => check_file
              ((fun _ => CheckOutcome.compiled [] []) a))).sum
         then 1 else 0)
    ∧ (formatMain ("jac-check" :: ["a.jac"])
        (fun _ => (⟨false, "", .raises "io"⟩ : FormatEnv))).exitCode
      = 1 :=
  hooks_exit_codes_on_errors "jac-check" ["a.jac"]
    (fun _ => CheckOutcome.compiled [] [])
    (fun _ => (⟨false, "", .raises "io"⟩ : FormatEnv))
    (by simp) (by decide) ⟨"a.jac", by decide, by decide⟩

/-- Claim C5: per-file exceptions are converted into returned values
(`check_file` counts 1 error, `format_file` yields an error result), and
both main loops process every `.jac` argument and aggregate the results
pointwise, so one file's failure never aborts its siblings. -/
theorem per_file_failures_isolated (prog fp orig msg : String)
    (args : List String) (cenv : String → CheckOutcome)
    (fenv : String → FormatEnv) :
    check_file (.raises msg) = 1
    ∧ (format_file fp ⟨true, orig, .raises msg⟩).1.error
        = some ("Unexpected error: " ++ msg)
    ∧ (checkMain (prog :: args) cenv).totalErrors
        = ((args.filter (fun a => pyEndsWith a ".jac")).map
            (fun a => check_file (cenv a))).sum
    ∧ (checkMain (prog :: args) cenv).filesChecked
        = (args.filter (fun a => pyEndsWith a ".jac")).length
    ∧ (formatMain (prog :: args) fenv).results
        = (args.filter (fun a => pyEndsWith a ".jac")).map
            (fun a => (format_file a (fenv a)).1) := by
  refine ⟨rfl, by simp [format_file], ?_, ?_, ?_⟩ <;>
    simp [checkMain_cons, formatMain_cons, checkErrorsTotal,
      formatResults, jacArgs]

/-- Claim C6: an argument not ending in `".jac"` is skipped entirely by
both hooks — removing it changes neither exit code, nor any error,
modified or checked-file count, nor the collected results. -/
theorem non_jac_args_skipped (prog fp : String)
    (args1 args2 : List String) (cenv : String → CheckOutcome)
    (fenv : String → FormatEnv) (h : pyEndsWith fp ".jac" = false) :
    (checkMain (prog :: (args1 ++ fp :: args2)) cenv).exitCode
      = (checkMain (prog :: (args1 ++ args2)) cenv).exitCode
    ∧ (checkMain (prog :: (args1 ++ fp :: args2)) cenv).totalErrors
      = (checkMain (prog :: (args1 ++ args2)) cenv).totalErrors
    ∧ (checkMain (prog :: (args1 ++ fp :: args2)) cenv).filesChecked
      = (checkMain (prog :: (args1 ++ args2)) cenv).filesChecked
    ∧ (formatMain (prog :: (args1 ++ fp :: args2)) fenv).exitCode
      = (formatMain (prog :: (args1 ++ args2)) fenv).exitCode
    ∧ (formatMain (prog :: (args1 ++ fp :: args2)) fenv).errorCount
      = (formatMain (prog :: (args1 ++ args2)) fenv).errorCount
    ∧ (formatMain (prog :: (args1 ++ fp :: args2)) fenv).modifiedCount
      = (formatMain (prog :: (args1 ++ args2)) fenv).modifiedCount
    ∧ (formatMain (prog :: (args1 ++ fp :: args2)) fenv).results
      = (formatMain (prog :: (args1 ++ args2)) fenv).results := by
  have hfil : jacArgs (args1 ++ fp :: args2) = jacArgs (args1 ++ args2) := by
    simp [jacArgs, List.filter_append, List.filter_cons, h]
  simp [checkMain_cons, formatMain_cons, checkErrorsTotal,
    formatResults, hfil]

/-- Witness for C6: a `README.md` argument between `.jac` runs makes no
difference to either hook's observable outcome. -/
theorem non_jac_args_skipped_witness :
    (checkMain ("p" :: (["a.jac"] ++ "README.md" :: []))
        (fun _ => CheckOutcome.compiled ["e"] [])).exitCode
      = (checkMain ("p" :: (["a.jac"] ++ []))
          (fun _ => CheckOutcome.compiled ["e"] [])).exitCode
    ∧ (checkMain ("p" :: (["a.jac"] ++ "README.md" :: []))
        (fun _ => CheckOutcome.compiled ["e"] [])).totalErrors
      = (checkMain ("p" :: (["a.jac"] ++ []))
          (fun _ => CheckOutcome.compiled ["e"] [])).totalErrors
    ∧ (checkMain ("p" :: (["a.jac"] ++ "README.md" :: []))
        (fun _ => CheckOutcome.compiled ["e"] [])).filesChecked
      = (checkMain ("p" :: (["a.jac"] ++ []))
          (fun _ => CheckOutcome.compiled ["e"] [])).filesChecked
    ∧ (formatMain ("p" :: (["a.jac"] ++ "README.md" :: []))
        (fun _ => (⟨false, "", .raises "io"⟩ : FormatEnv))).exitCode
      = (formatMain ("p" :: (["a.jac"] ++ []))
          (fun _ => (⟨false, "", .raises "io"⟩ : FormatEnv))).exitCode
    ∧ (formatMain ("p" :: (["a.jac"] ++ "README.md" :: []))
        (fun _ => (⟨false, "", .raises "io"⟩ : FormatEnv))).errorCount
      = (formatMain ("p" :: (["a.jac"] ++ []))
          (fun _ => (⟨false, "", .raises "io"⟩ : FormatEnv))).errorCount
    ∧ (formatMain ("p" :: (["a.jac"] ++ "README.md" :: []))
        (fun _ => (⟨false, "", .raises "io"⟩ : FormatEnv))).modifiedCount
      = (formatMain ("p" :: (["a.jac"] ++ []))
          (fun _ => (⟨false, "", .raises "io"⟩ : FormatEnv))).modifiedCount
    ∧ (formatMain ("p" :: (["a.jac"] ++ "README.md" :: []))
        (fun _ => (⟨false, "", .raises "io"⟩ : FormatEnv))).results
      = (formatMain ("p" :: (["a.jac"] ++ []))
          (fun _ => (⟨false, "", .raises "io"⟩ : FormatEnv))).results :=
  non_jac_args_skipped "p" "README.md" ["a.jac"] []
    (fun _ => CheckOutcome.compiled ["e"] [])
    (fun _ => (⟨false, "", .raises "io"⟩ : FormatEnv)) (by decide)

/-- Claim C9: the jac-format entry point exits 1 when any error occurred,
else 1 when at least one file was modified, and 0 only when no errors
occurred and no file was modified; the counts are those of the collected
results. -/
theorem format_exit_one_when_modified (argv : List String)
    (fenv : String → FormatEnv) :
    (formatMain argv fenv).exitCode
      = (if 0 < (formatMain argv fenv).errorCount then 1
         else if 0 < (formatMain argv fenv).modifiedCount then 1 else 0)
    ∧ (formatMain argv fenv).errorCount
      = (formatMain argv fenv).results.countP (fun r => r.error.isSome)
    ∧ (formatMain argv fenv).modifiedCount
      = (formatMain argv fenv).results.countP
          (fun r => !r.error.isSome && r.modified) := by
  cases argv with
  | nil => simp [formatMain]
  | cons prog args => simp [formatMain_cons]

/-- Claim C10: with fewer than two argv entries, both hooks show the
usage message, process no file and return exit status 0. -/
theorem usage_on_no_args (argv : List String)
    (cenv : String → CheckOutcome) (fenv : String → FormatEnv)
    (h : argv.length < 2) :
    checkMain argv cenv
      = { exitCode := 0, filesChecked := 0, totalErrors := 0,
          usageShown := true }
    ∧ formatMain argv fenv
      = { exitCode := 0, errorCount := 0, modifiedCount := 0,
          results := [], usageShown := true } := by
  simp [checkMain, formatMain, h]

/-- Witness for C10: an argv holding only the program name. -/
theorem usage_on_no_args_witness :
    checkMain ["jac-check"] (fun _ => CheckOutcome.compiled [] [])
      = { exitCode := 0, filesChecked := 0, totalErrors := 0,
          usageShown := true }
    ∧ formatMain ["jac-check"]
        (fun _ => (⟨true, "", .runs [] [] none []⟩ : FormatEnv))
      = { exitCode := 0, errorCount := 0, modifiedCount := 0,
          results := [], usageShown := true } :=
  usage_on_no_args ["jac-check"] (fun _ => CheckOutcome.compiled [] [])
    (fun _ => (⟨true, "", .runs [] [] none []⟩ : FormatEnv)) (by decide)

end JacPreCommit
